import Mathlib

/-!
Verification development for the bank-dashboard data pipeline (`app.py`).

The Python source is shallowly embedded: Python floats are modelled as exact
rationals extended with the special values NaN and ±infinity (`FloatVal`;
rounding of IEEE doubles is not modelled, while overflow of parsed string
literals to ±infinity is), JSON / in-memory
record values as the inductive `CJson`, and the stateful repository
(cache + network) as explicit state passing where the sequence of network
responses and the stream of random draws are input parameters.

Rational arithmetic is performed through `qAdd`/`qSub`/`qMul`/`qDiv`/`qOfNat`,
kernel-computable wrappers around `mkRat`/`Rat.divInt` that are proved equal
to Mathlib's field operations on `ℚ` below, so concrete runs of the embedded
code can be evaluated inside proofs.
-/

/-- Rational addition, computable by the kernel. -/
def qAdd (a b : ℚ) : ℚ := mkRat (a.num * b.den + b.num * a.den) (a.den * b.den)

/-- Rational negation, computable by the kernel. -/
def qNeg (a : ℚ) : ℚ := mkRat (-a.num) a.den

/-- Rational subtraction, computable by the kernel. -/
def qSub (a b : ℚ) : ℚ := qAdd a (qNeg b)

/-- Rational multiplication, computable by the kernel. -/
def qMul (a b : ℚ) : ℚ := mkRat (a.num * b.num) (a.den * b.den)

/-- Rational division, computable by the kernel (`qDiv a 0 = 0`; every
division in the embedded code is guarded by a nonzero threshold). -/
def qDiv (a b : ℚ) : ℚ := Rat.divInt (a.num * b.den) (a.den * b.num)

/-- The rational number of a natural number, computable by the kernel. -/
def qOfNat (n : ℕ) : ℚ := mkRat n 1

/-- A Python float value: a finite rational, NaN, or a signed infinity.
IEEE-754 rounding and signed zero are not modelled; finite arithmetic is
exact rational arithmetic, and string-literal parsing overflows to ±infinity
at the double overflow bound (`floatOverflowBound` below). -/
inductive FloatVal where
  | finite (q : ℚ)
  | nan
  | inf
  | neginf
  deriving DecidableEq

namespace FloatVal

/-- Negation of a Python float. -/
def neg : FloatVal → FloatVal
  | finite q => finite (qNeg q)
  | nan => nan
  | inf => neginf
  | neginf => inf

/-- Addition of Python floats (NaN propagates, `inf + (-inf)` is NaN). -/
def add : FloatVal → FloatVal → FloatVal
  | nan, _ => nan
  | _, nan => nan
  | inf, neginf => nan
  | neginf, inf => nan
  | inf, _ => inf
  | _, inf => inf
  | neginf, _ => neginf
  | _, neginf => neginf
  | finite a, finite b => finite (qAdd a b)

/-- Subtraction of Python floats. -/
def sub (a b : FloatVal) : FloatVal := a.add b.neg

/-- Multiplication of Python floats (`inf * 0` is NaN). -/
def mul : FloatVal → FloatVal → FloatVal
  | nan, _ => nan
  | _, nan => nan
  | inf, inf => inf
  | inf, neginf => neginf
  | neginf, inf => neginf
  | neginf, neginf => inf
  | inf, finite b => if b > 0 then inf else if b < 0 then neginf else nan
  | finite a, inf => if a > 0 then inf else if a < 0 then neginf else nan
  | neginf, finite b => if b > 0 then neginf else if b < 0 then inf else nan
  | finite a, neginf => if a > 0 then neginf else if a < 0 then inf else nan
  | finite a, finite b => finite (qMul a b)

/-- Division of Python floats.  Division of a finite float by finite zero
raises `ZeroDivisionError` in Python; every division in the source is guarded
by a strictly positive threshold on the denominator, so that case is
unreachable and is collapsed to NaN here. -/
def div : FloatVal → FloatVal → FloatVal
  | nan, _ => nan
  | _, nan => nan
  | inf, inf => nan
  | inf, neginf => nan
  | neginf, inf => nan
  | neginf, neginf => nan
  | inf, finite b => if b ≥ 0 then inf else neginf
  | neginf, finite b => if b ≥ 0 then neginf else inf
  | finite _, inf => finite 0
  | finite _, neginf => finite 0
  | finite a, finite b => if b = 0 then nan else finite (qDiv a b)

/-- Python comparison `x > c` against a finite constant: NaN compares false,
`inf` is greater than every finite constant. -/
def gt (x : FloatVal) (c : ℚ) : Bool :=
  match x with
  | finite q => decide (q > c)
  | inf => true
  | nan => false
  | neginf => false

end FloatVal

/-- Drop leading and trailing whitespace characters. -/
def trimWs (cs : List Char) : List Char :=
  ((cs.dropWhile Char.isWhitespace).reverse.dropWhile Char.isWhitespace).reverse

/-- Split a character list at the first character satisfying `p`; the second
component is `none` when no such character occurs. -/
def splitAtChar (p : Char → Bool) : List Char → List Char × Option (List Char)
  | [] => ([], none)
  | c :: rest =>
    if p c then ([], some rest)
    else
      let r := splitAtChar p rest
      (c :: r.1, r.2)

/-- Numeric value of a list of decimal digit characters. -/
def digitsVal (cs : List Char) : ℕ :=
  cs.foldl (fun a c => a * 10 + (c.toNat - 48)) 0

/-- Parse the mantissa of a decimal literal: `digits`, `digits.digits`,
`digits.` or `.digits` (at least one digit overall). -/
def parseMantissa (cs : List Char) : Option ℚ :=
  let s := splitAtChar (· = '.') cs
  match s.2 with
  | none =>
    if cs ≠ [] ∧ cs.all Char.isDigit then some (qOfNat (digitsVal cs)) else none
  | some fp =>
    if (s.1 ++ fp) ≠ [] ∧ s.1.all Char.isDigit ∧ fp.all Char.isDigit then
      some (qAdd (qOfNat (digitsVal s.1))
        (qDiv (qOfNat (digitsVal fp)) (qOfNat (10 ^ fp.length))))
    else none

/-- Parse an exponent part (after `e`/`E`): optional sign then digits. -/
def parseExpPart (cs : List Char) : Option ℤ :=
  match cs with
  | '+' :: r => if r ≠ [] ∧ r.all Char.isDigit then some ((digitsVal r : ℕ) : ℤ) else none
  | '-' :: r => if r ≠ [] ∧ r.all Char.isDigit then some (-((digitsVal r : ℕ) : ℤ)) else none
  | r => if r ≠ [] ∧ r.all Char.isDigit then some ((digitsVal r : ℕ) : ℤ) else none

/-- Multiply a rational by `10 ^ e` for an integer exponent `e`. -/
def qMulPow10 (m : ℚ) (e : ℤ) : ℚ :=
  if 0 ≤ e then qMul m (qOfNat (10 ^ e.toNat))
  else qDiv m (qOfNat (10 ^ (-e).toNat))

/-- Parse an unsigned decimal literal with optional exponent. -/
def parseDecimal (cs : List Char) : Option ℚ :=
  let s := splitAtChar (fun c => c = 'e' || c = 'E') cs
  match parseMantissa s.1 with
  | none => none
  | some m =>
    match s.2 with
    | none => some m
    | some ecs =>
      match parseExpPart ecs with
      | none => none
      | some e => some (qMulPow10 m e)

/-- The smallest magnitude at which `float(str)` overflows to infinity:
IEEE round-to-nearest-even sends every exact value of magnitude at least the
midpoint `2^1024 − 2^970` between `DBL_MAX = 2^1024 − 2^971` and `2^1024` up
to `2^1024`, which is out of range, so C `strtod` (and hence Python) yields
±infinity there; strictly below the midpoint the literal rounds to a finite
double. -/
def floatOverflowBound : ℚ := qOfNat (2 ^ 1024 - 2 ^ 970)

/-- The float value of an exactly parsed decimal literal: ±infinity from the
overflow bound on, the (unrounded) finite value below it.  (Rounding of
in-range literals to the nearest double is not modelled — a finite value
stays finite either way; gradual underflow of tiny literals to `0.0` likewise
keeps them finite.) -/
def floatOfLiteral (q : ℚ) : FloatVal :=
  if floatOverflowBound ≤ q then .inf
  else if q ≤ qNeg floatOverflowBound then .neginf
  else .finite q

/-- Model of Python's builtin `float(str)` on the fragment exercised by the
source: surrounding whitespace, an optional sign, the case-insensitive special
words `nan` / `inf` / `infinity`, and decimal literals with optional exponent,
where a literal whose magnitude reaches the double overflow bound parses to
±infinity (`float('1e999')` is `inf`).  (Digit-group underscores are not
modelled.)  `none` means Python raises `ValueError`. -/
def pyParseFloat (s : String) : Option FloatVal :=
  let cs := trimWs s.toList
  let sb : Bool × List Char :=
    match cs with
    | '+' :: r => (false, r)
    | '-' :: r => (true, r)
    | r => (false, r)
  let lower := sb.2.map Char.toLower
  if lower = "nan".toList then some FloatVal.nan
  else if lower = "inf".toList ∨ lower = "infinity".toList then
    some (if sb.1 then FloatVal.neginf else FloatVal.inf)
  else
    match parseDecimal sb.2 with
    | some q => some (floatOfLiteral (if sb.1 then qNeg q else q))
    | none => none

/-- A JSON-like value: the type of parsed API responses, raw period records,
and cache file contents.  Python `None`/`bool`/numbers/strings map to the
corresponding constructors (JSON numbers and in-memory numeric fields are
finite, so `num` carries a rational). -/
inductive CJson where
  | null
  | bool (b : Bool)
  | num (q : ℚ)
  | str (s : String)
  | arr (xs : List CJson)
  | obj (es : List (String × CJson))

namespace CJson

/-- Python truthiness of a value: empty containers, empty strings, zero and
`None`/`False` are falsy. -/
def truthy : CJson → Bool
  | null => false
  | bool b => b
  | num q => decide (q ≠ 0)
  | str s => decide (s ≠ "")
  | arr [] => false
  | arr (_ :: _) => true
  | obj [] => false
  | obj (_ :: _) => true

end CJson

/-- Python `==` between a value and a string (used for membership tests and
dict keys; the only cross-type comparisons the source can reach compare a
string against values, and those are unequal in Python unless both are equal
strings). -/
def pyEqStr (x : CJson) (s : String) : Bool :=
  match x with
  | .str t => t = s
  | _ => false

/-- Equality of Python dict keys.  Keys reaching a dict in the source are
hashable (`null`/`bool`/`num`/`str`); composite keys raise `TypeError` before
any insertion and never reach this function.  (Python's numeric cross-type
key equality such as `True == 1` is not modelled; every key in the modelled
flows is a string.) -/
def keyEq (a b : CJson) : Bool :=
  match a, b with
  | .null, .null => true
  | .bool x, .bool y => x = y
  | .num x, .num y => decide (x = y)
  | .str x, .str y => x = y
  | _, _ => false

/-- First-match association-list lookup (dict keys are unique, so first match
equals Python dict lookup). -/
def dlookup (es : List (String × CJson)) (k : String) : Option CJson :=
  match es with
  | [] => none
  | e :: rest => if e.1 = k then some e.2 else dlookup rest k

/-- Python `d.get(k, dflt)` on an object's entry list. -/
def dget (es : List (String × CJson)) (k : String) (dflt : CJson) : CJson :=
  match dlookup es k with
  | some v => v
  | none => dflt

/-- Python `financial.get(k)` on a record: `None` when the key is absent.
The source only ever calls this on dict records; a non-dict record would
raise `AttributeError` in Python and is mapped to `None` here. -/
def fget (f : CJson) (k : String) : CJson :=
  match f with
  | .obj es => dget es k .null
  | _ => .null

/-- `BankMetricsCalculator.safe_float`: `float(value) if value is not None
else 0.0`, with `ValueError`/`TypeError` degrading to `0.0`.  Note
`float(True) = 1.0`, and a string such as `"nan"` or `"inf"` parses to a
non-finite float. -/
def safe_float (v : CJson) : FloatVal :=
  match v with
  | .null => .finite 0
  | .num q => .finite q
  | .bool b => .finite (if b then 1 else 0)
  | .str s =>
    match pyParseFloat s with
    | some f => f
    | none => .finite 0
  | .arr _ => .finite 0
  | .obj _ => .finite 0

/-- One row of the derived-metrics table (`BankMetricsCalculator`'s per-record
`metrics` dict as a typed structure): the `Bank`/`Date` pass-through values,
the 49 directly-extracted base metrics, and the derived fields.  Derived
ratio fields use `Option FloatVal`: `none` is Python `None`, the null marker.
Derived fields hold their pre-assignment placeholder until the corresponding
calculation step assigns them. -/
structure Metrics where
  bank : CJson
  date : CJson
  totalAssets : FloatVal
  totalDeposits : FloatVal
  totalLoansAndLeases : FloatVal
  netLoansAndLeases : FloatVal
  totalSecurities : FloatVal
  realEstateLoans : FloatVal
  loansToResidential : FloatVal
  multifamily : FloatVal
  farmlandRealEstate : FloatVal
  loansToNonresidential : FloatVal
  ownerOccupiedNonres : FloatVal
  nonOOCNonres : FloatVal
  reConstruction : FloatVal
  fam14Construction : FloatVal
  otherConstruction : FloatVal
  commercialRENotSecured : FloatVal
  commercialIndustrial : FloatVal
  agricultureLoans : FloatVal
  creditCards : FloatVal
  consumerLoans : FloatVal
  allowanceForCreditLoss : FloatVal
  pastDue3089 : FloatVal
  pastDue90 : FloatVal
  tier1CoreCapital : FloatVal
  totalChargeOffs : FloatVal
  totalRecoveries : FloatVal
  netChargeOffsQuarterly : FloatVal
  netIncome : FloatVal
  cet1BeforeAdjustments : FloatVal
  bankEquityCapital : FloatVal
  perpetualPreferredStock : FloatVal
  netInterestMargin : FloatVal
  earningAssetsToAssets : FloatVal
  nonperformingToAssets : FloatVal
  pastDue3089ToAssets : FloatVal
  pastDue90ToAssets : FloatVal
  netChargeOffsToLoans : FloatVal
  earningsCoverage : FloatVal
  lossProvisionToChargeOffs : FloatVal
  lossAllowanceToLoans : FloatVal
  lossAllowanceToNoncurrent : FloatVal
  noncurrentToLoans : FloatVal
  netLoansToDeposits : FloatVal
  netLoansToAssets : FloatVal
  returnOnAssets : FloatVal
  returnOnEquity : FloatVal
  leverageCoreCapital : FloatVal
  totalRiskBasedCapital : FloatVal
  efficiency : FloatVal
  ceclTransitionAmount : FloatVal := .finite 0
  realEstateToCap : Option FloatVal := none
  reConstructionToCap : Option FloatVal := none
  ciToCap : Option FloatVal := none
  agToCap : Option FloatVal := none
  creditCardsToCap : Option FloatVal := none
  commercialREToCap : Option FloatVal := none
  creGrowthRate : Option FloatVal := none
  netChargeOffsToACL : FloatVal := .finite 0

/-- `BankMetricsCalculator._extract_basic_metrics`: map the known field codes
to named metrics through `safe_float` (missing key → `None` → `0.0`). -/
def extractBasicMetrics (bank : CJson) (financial : CJson) : Metrics where
  bank := bank
  date := fget financial "REPDTE"
  totalAssets := safe_float (fget financial "ASSET")
  totalDeposits := safe_float (fget financial "DEP")
  totalLoansAndLeases := safe_float (fget financial "LNLSGR")
  netLoansAndLeases := safe_float (fget financial "LNLSNET")
  totalSecurities := safe_float (fget financial "SC")
  realEstateLoans := safe_float (fget financial "LNRE")
  loansToResidential := safe_float (fget financial "LNRERES")
  multifamily := safe_float (fget financial "LNREMULT")
  farmlandRealEstate := safe_float (fget financial "LNREAG")
  loansToNonresidential := safe_float (fget financial "LNRENRES")
  ownerOccupiedNonres := safe_float (fget financial "LNRENROW")
  nonOOCNonres := safe_float (fget financial "LNRENROT")
  reConstruction := safe_float (fget financial "LNRECONS")
  fam14Construction := safe_float (fget financial "LNRECNFM")
  otherConstruction := safe_float (fget financial "LNRECNOT")
  commercialRENotSecured := safe_float (fget financial "LNCOMRE")
  commercialIndustrial := safe_float (fget financial "LNCI")
  agricultureLoans := safe_float (fget financial "LNAG")
  creditCards := safe_float (fget financial "LNCRCD")
  consumerLoans := safe_float (fget financial "LNCONOTH")
  allowanceForCreditLoss := safe_float (fget financial "LNATRES")
  pastDue3089 := safe_float (fget financial "P3ASSET")
  pastDue90 := safe_float (fget financial "P9ASSET")
  tier1CoreCapital := safe_float (fget financial "RBCT1J")
  totalChargeOffs := safe_float (fget financial "DRLNLS")
  totalRecoveries := safe_float (fget financial "CRLNLS")
  netChargeOffsQuarterly := safe_float (fget financial "NTLNLSQ")
  netIncome := safe_float (fget financial "NETINC")
  cet1BeforeAdjustments := safe_float (fget financial "CT1BADJ")
  bankEquityCapital := safe_float (fget financial "EQ")
  perpetualPreferredStock := safe_float (fget financial "EQPP")
  netInterestMargin := safe_float (fget financial "NIMY")
  earningAssetsToAssets := safe_float (fget financial "ERNASTR")
  nonperformingToAssets := safe_float (fget financial "NPERFV")
  pastDue3089ToAssets := safe_float (fget financial "P3ASSETR")
  pastDue90ToAssets := safe_float (fget financial "P9ASSETR")
  netChargeOffsToLoans := safe_float (fget financial "NTLNLSR")
  earningsCoverage := safe_float (fget financial "IDERNCVR")
  lossProvisionToChargeOffs := safe_float (fget financial "ELNANTR")
  lossAllowanceToLoans := safe_float (fget financial "LNATRESR")
  lossAllowanceToNoncurrent := safe_float (fget financial "LNRESNCR")
  noncurrentToLoans := safe_float (fget financial "NCLNLSR")
  netLoansToDeposits := safe_float (fget financial "LNLSDEPR")
  netLoansToAssets := safe_float (fget financial "LNLSNTV")
  returnOnAssets := safe_float (fget financial "ROA")
  returnOnEquity := safe_float (fget financial "ROE")
  leverageCoreCapital := safe_float (fget financial "RBC1AAJ")
  totalRiskBasedCapital := safe_float (fget financial "RBCRWAJ")
  efficiency := safe_float (fget financial "EEFFR")

/-- Numeric value of an all-digit string, `0` otherwise. -/
def natOfDigits (s : String) : ℕ :=
  if s.toList ≠ [] ∧ s.toList.all Char.isDigit then digitsVal s.toList else 0

/-- The report date of a record as a `YYYYMMDD` natural number.  For valid
dates, numeric order on `YYYYMMDD` coincides with chronological order, so
`pd.to_datetime(...) >= pd.to_datetime('2019-01-01')` becomes `· ≥ 20190101`.
A missing `REPDTE` gives `pd.to_datetime(None) = NaT`, whose `>=` comparison
is always false, matching the default `0` here. -/
def repdteNat (f : CJson) : ℕ :=
  match fget f "REPDTE" with
  | .str s => natOfDigits s
  | .num q => if q.den = 1 ∧ 0 ≤ q.num then q.num.toNat else 0
  | _ => 0

/-- `BankMetricsCalculator._calculate_capital_base`: the pair
`(cecl_transition_amount, capital_base)`.  From 2019-01-01 onward the CECL
transition amount is `CT1BADJ − EQ + EQPP` and is subtracted from
`RBCT1J + LNATRES`; before that date the transition amount is `0`. -/
def calcCapitalBase (m : Metrics) (financial : CJson) : FloatVal × FloatVal :=
  let ct1badj := m.cet1BeforeAdjustments
  let eq := m.bankEquityCapital
  let eqpp := m.perpetualPreferredStock
  let tier1_capital := m.tier1CoreCapital
  let allowance_for_credit_loss := m.allowanceForCreditLoss
  if repdteNat financial ≥ 20190101 then
    let cecl_transition_amount := (ct1badj.sub eq).add eqpp
    (cecl_transition_amount,
      (tier1_capital.add allowance_for_credit_loss).sub cecl_transition_amount)
  else
    (.finite 0, tier1_capital.add allowance_for_credit_loss)

/-- `BankMetricsCalculator._calculate_capital_ratios`: when the capital base
exceeds the 1,000,000 floor, each ratio is `(numerator / capital_base) * 100`;
otherwise every one of the six ratios is set to `None`. -/
def calcCapitalRatios (m : Metrics) (capital_base : FloatVal) : Metrics :=
  if capital_base.gt 1000000 then
    let commercial_re :=
      ((m.reConstruction.add m.multifamily).add m.loansToNonresidential).add
        m.commercialRENotSecured
    { m with
      realEstateToCap := some ((m.realEstateLoans.div capital_base).mul (.finite 100))
      reConstructionToCap := some ((m.reConstruction.div capital_base).mul (.finite 100))
      ciToCap := some ((m.commercialIndustrial.div capital_base).mul (.finite 100))
      agToCap := some ((m.agricultureLoans.div capital_base).mul (.finite 100))
      creditCardsToCap := some ((m.creditCards.div capital_base).mul (.finite 100))
      commercialREToCap := some ((commercial_re.div capital_base).mul (.finite 100)) }
  else
    { m with
      realEstateToCap := none
      reConstructionToCap := none
      ciToCap := none
      agToCap := none
      commercialREToCap := none
      creditCardsToCap := none }

/-- The non-owner-occupied CRE aggregate of a raw record:
`LNRECONS + LNREMULT + LNRENROT + LNCOMRE` through `safe_float`. -/
def creAggregate (f : CJson) : FloatVal :=
  ((safe_float (fget f "LNRECONS")).add
    (safe_float (fget f "LNREMULT"))).add
    (safe_float (fget f "LNRENROT")) |>.add
    (safe_float (fget f "LNCOMRE"))

/-- `BankMetricsCalculator._calculate_cre_growth_rate`: positional 12-period
lookback; the growth rate `((current/old) − 1) * 100` is produced only when
`i ≥ 12` and the old aggregate strictly exceeds `1000`, otherwise `None`.
(`sorted_financials[i-12]` always exists in the source when `i ≥ 12`; the
unreachable out-of-range case leaves the row unchanged.) -/
def calcCreGrowthRate (m : Metrics) (sorted_financials : List CJson) (i : ℕ)
    (current_financial : CJson) : Metrics :=
  let non_owner_occupied_cre := creAggregate current_financial
  if i ≥ 12 then
    match sorted_financials.get? (i - 12) with
    | some three_years_ago =>
      let old_cre := creAggregate three_years_ago
      if old_cre.gt 1000 then
        let growth_rate := (non_owner_occupied_cre.div old_cre).sub (.finite 1)
        { m with creGrowthRate := some (growth_rate.mul (.finite 100)) }
      else
        { m with creGrowthRate := none }
    | none => m
  else
    { m with creGrowthRate := none }

/-- `BankMetricsCalculator._calculate_charge_off_metrics`: quarterly net
charge-offs over the credit-loss allowance (as a percentage) when the
allowance exceeds `1000`, otherwise zero-filled (not `None`). -/
def calcChargeOffMetrics (m : Metrics) : Metrics :=
  if m.allowanceForCreditLoss.gt 1000 then
    { m with netChargeOffsToACL :=
        (m.netChargeOffsQuarterly.div m.allowanceForCreditLoss).mul (.finite 100) }
  else
    { m with netChargeOffsToACL := .finite 0 }

/-- Lexicographic comparison of character lists by code point (Python string
comparison). -/
def charListLe : List Char → List Char → Bool
  | [], _ => true
  | _ :: _, [] => false
  | a :: as, b :: bs => if a = b then charListLe as bs else decide (a < b)

/-- The `REPDTE` sort key of a record (`x['REPDTE']`; the source assumes a
string value is present). -/
def repdteKey (f : CJson) : String :=
  match fget f "REPDTE" with
  | .str s => s
  | _ => ""

/-- Insert `x` after every element `y` with `le y x` (stable insertion). -/
def insertByLe (le : α → α → Bool) (x : α) : List α → List α
  | [] => [x]
  | y :: ys => if le y x then y :: insertByLe le x ys else x :: y :: ys

/-- Stable sort by a boolean `≤` test; agrees with Python's stable `sorted`.
-/
def stableSortBy (le : α → α → Bool) (l : List α) : List α :=
  l.foldl (fun acc x => insertByLe le x acc) []

/-- The per-record body of `calculate_metrics`'s inner loop: base extraction,
capital base, capital ratios, CRE growth rate, charge-off metrics. -/
def calcRow (bank : CJson) (sorted_financials : List CJson) (i : ℕ)
    (financial : CJson) : Metrics :=
  let m := extractBasicMetrics bank financial
  let cb := calcCapitalBase m financial
  let m := { m with ceclTransitionAmount := cb.1 }
  let m := calcCapitalRatios m cb.2
  let m := calcCreGrowthRate m sorted_financials i financial
  calcChargeOffMetrics m

/-- One entity's pass of `calculate_metrics`: sort the period records by
`REPDTE` ascending, then process them in order with positional index `i`. -/
def calcBankRows (bank : CJson) (financials : List CJson) : List Metrics :=
  let sorted_financials :=
    stableSortBy (fun a b => charListLe (repdteKey a).toList (repdteKey b).toList) financials
  sorted_financials.enum.map (fun p => calcRow bank sorted_financials p.1 p.2)

/-- `BankMetricsCalculator.calculate_metrics`: all entities' rows combined and
stably sorted by date ascending (`df.sort_values('Date')`; chronological order
of parsed dates equals numeric order of `YYYYMMDD`). -/
def calculateMetrics (financials_data : List (CJson × List CJson)) : List Metrics :=
  stableSortBy (fun a b => decide (repdteNat a.date ≤ repdteNat b.date))
    ((financials_data.map (fun p => calcBankRows p.1 p.2)).flatten)

/-- The 13 consecutive quarter-end report dates used in the growth-rate
scenarios. -/
def c2Dates : List String :=
  ["20200331", "20200630", "20200930", "20201231", "20210331", "20210630",
   "20210930", "20211231", "20220331", "20220630", "20220930", "20221231",
   "20230331"]

/-- A raw period record whose non-owner-occupied-CRE aggregate is `v`
(carried entirely by `LNRECONS`). -/
def c2Rec (d : String) (v : ℚ) : CJson :=
  .obj [("REPDTE", .str d), ("LNRECONS", .num v)]

/-- Thirteen consecutive quarterly records with CRE aggregate `v0` at
period 0, `v12` at period 12 and `0` in between. -/
def c2Recs (v0 v12 : ℚ) : List CJson :=
  c2Dates.enum.map (fun p =>
    c2Rec p.2 (if p.1 = 0 then v0 else if p.1 = 12 then v12 else 0))

/-- The outcome of one HTTP request: `fail` is any `requests.RequestException`
(timeout, connection failure, non-2xx status via `raise_for_status`, or a
body that is not valid JSON — `response.json()` raises a `RequestException`
subclass); `body j` is a 2xx response whose body parsed to the JSON value
`j`. -/
inductive Resp where
  | fail
  | body (j : CJson)

/-- `FDICAPIClient.get_data`: on any `RequestException` the error is logged
and the envelope `{"data": []}` returned; otherwise the parsed body. -/
def getData : Resp → CJson
  | .fail => .obj [("data", .arr [])]
  | .body j => j

/-- `FDICAPIClient.get_institutions` up to its `data.get('data', [])`
projection.  When the parsed body is not a JSON object, `.get` raises
`AttributeError` (not caught by `get_data`), modelled as `.error`. -/
def getInstitutionsRaw (r : Resp) : Except Unit CJson :=
  match getData r with
  | .obj es => .ok (dget es "data" (.arr []))
  | _ => .error ()

/-- `FDICAPIClient.get_financials` up to its `data.get('data', [])`
projection; the `cert`/`filters` request parameters only shape the request,
whose outcome the `Resp` oracle already fixes. -/
def getFinancialsRaw (r : Resp) : Except Unit CJson :=
  match getData r with
  | .obj es => .ok (dget es "data" (.arr []))
  | _ => .error ()

/-- The comprehension `[f['data'] for f in financials if isinstance(f, dict)
and 'data' in f]`: iterating a list keeps the dict elements with a `data`
key; iterating a string or dict yields characters/keys, none of which are
dicts; iterating a number/bool/`None` raises `TypeError`. -/
def financialsList (v : CJson) : Except Unit (List CJson) :=
  match v with
  | .arr xs =>
    .ok (xs.filterMap (fun f =>
      match f with
      | .obj fes => dlookup fes "data"
      | _ => none))
  | .str _ => .ok []
  | .obj _ => .ok []
  | _ => .error ()

/-- The financials records extracted from one financials response, or the
exception that reaches `fetch_data`'s per-item handler. -/
def finListResult (r : Resp) : Except Unit (List CJson) :=
  match getFinancialsRaw r with
  | .ok v => financialsList v
  | .error e => .error e

/-- A financials response that cannot raise after the institution record has
been recorded: either a transport-level failure (recovered to the empty
envelope) or a JSON object whose `data` field is iterable. -/
def finRespOK (r : Resp) : Bool :=
  match r with
  | .fail => true
  | .body j =>
    match j with
    | .obj es =>
      match dget es "data" (.arr []) with
      | .arr _ => true
      | .str _ => true
      | .obj _ => true
      | _ => false
    | _ => false

/-- One entry of the roster passed to `fetch_data`: a bank name string, a
dict with a `cert` key, or anything else (logged and skipped). -/
inductive RosterItem where
  | byName (s : String)
  | byCert (c : String)
  | invalid

/-- Whether `pat` is a leading piece of `l`. -/
def chPre : List Char → List Char → Bool
  | [], _ => true
  | _ :: _, [] => false
  | a :: as, b :: bs => a = b && chPre as bs

/-- Whether `pat` occurs inside `l` (Python `pat in s` on strings). -/
def chSub (pat : List Char) : List Char → Bool
  | [] => chPre pat []
  | l@(_ :: rest) => chPre pat l || chSub pat rest

/-- What processing one institutions response leads to: skip the roster item,
raise (caught by the per-item handler, incrementing the failure counter), or
proceed with the resolved `NAME` key and `bank_data` record. -/
inductive ResolveOutcome where
  | skip
  | raise
  | proceed (nm : CJson) (bd : CJson)

/-- Processing of `bank_data` (`'NAME' in bank_data and 'CERT' in bank_data`
then `bank_data['NAME']`): a dict proceeds when both keys are present and is
skipped otherwise; `in` on a string or list is a membership test, and when
both tests pass the subsequent `bank_data['NAME']` subscript raises
`TypeError`; `in` on a number/bool/`None` raises `TypeError` directly. -/
def bankDataOutcome (bd : CJson) : ResolveOutcome :=
  match bd with
  | .obj es =>
    match dlookup es "NAME", dlookup es "CERT" with
    | some nm, some _ => .proceed nm bd
    | _, _ => .skip
  | .str s =>
    if chSub "NAME".toList s.toList then
      (if chSub "CERT".toList s.toList then .raise else .skip)
    else .skip
  | .arr xs =>
    if xs.any (fun x => pyEqStr x "NAME") then
      (if xs.any (fun x => pyEqStr x "CERT") then .raise else .skip)
    else .skip
  | _ => .raise

/-- Processing of one institutions response inside `fetch_data`'s per-item
`try`: a non-object body raises in `get_institutions`; a falsy `data` value
is skipped (`if not institutions`); `institutions[0]` of a non-empty list is
its head, of a string its first character (a non-dict, skipped), and of any
other truthy value raises; a head without a `data` key (or a non-dict head)
is skipped. -/
def resolveOutcome (r : Resp) : ResolveOutcome :=
  match getInstitutionsRaw r with
  | .error _ => .raise
  | .ok v =>
    if v.truthy = false then .skip
    else
      match v with
      | .arr (bank :: _) =>
        (match bank with
         | .obj bes =>
           (match dlookup bes "data" with
            | some bd => bankDataOutcome bd
            | none => .skip)
         | _ => .skip)
      | .str _ => .skip
      | _ => .raise

/-- Whether a value can be a Python dict key; list/dict keys raise
`TypeError` before the insertion happens. -/
def hashableKey : CJson → Bool
  | .arr _ => false
  | .obj _ => false
  | _ => true

/-- Python dict assignment `d[k] = v` on an entry list: replace the value at
an existing equal key (keeping the stored key), else append. -/
def dictInsert (k : CJson) (v : α) : List (CJson × α) → List (CJson × α)
  | [] => [(k, v)]
  | e :: rest => if keyEq k e.1 then (e.1, v) :: rest else e :: dictInsert k v rest

/-- The loop state of `fetch_data`: the two accumulated maps, the failure
counter, the index of the next network response to consume, and the number
of network calls made. -/
structure FetchSt where
  insts : List (CJson × CJson)
  fins : List (CJson × List CJson)
  failures : ℕ
  respIdx : ℕ
  calls : ℕ

/-- The body of `fetch_data`'s per-item `try` for a name/cert roster item:
one institutions request; on proceed, the institution record is stored, then
one financials request is made and its records stored under the same key —
a financials-side exception strikes after the institutions insertion and
increments the failure counter. -/
def itemFetch (responses : ℕ → Resp) (st : FetchSt) : FetchSt :=
  let r := responses st.respIdx
  let st1 : FetchSt := { st with respIdx := st.respIdx + 1, calls := st.calls + 1 }
  match resolveOutcome r with
  | .skip => st1
  | .raise => { st1 with failures := st1.failures + 1 }
  | .proceed nm bd =>
    if hashableKey nm then
      let insts1 := dictInsert nm bd st1.insts
      let r2 := responses st1.respIdx
      let st2 : FetchSt :=
        { st1 with respIdx := st1.respIdx + 1, calls := st1.calls + 1, insts := insts1 }
      match finListResult r2 with
      | .ok recs => { st2 with fins := dictInsert nm recs st2.fins }
      | .error _ => { st2 with failures := st2.failures + 1 }
    else { st1 with failures := st1.failures + 1 }

/-- One roster item of `fetch_data`'s inner loop; an invalid item is logged
and skipped before any network call. -/
def itemStep (responses : ℕ → Resp) (st : FetchSt) (item : RosterItem) : FetchSt :=
  match item with
  | .invalid => st
  | .byName _ => itemFetch responses st
  | .byCert _ => itemFetch responses st

/-- The outer retry loop of `fetch_data`: up to `fuel` attempts; each attempt
starts from cleared maps (attempt 0 starts empty, retries clear explicitly)
while the failure counter, response cursor and call count persist; the loop
ends early as soon as an attempt collects at least one institution. -/
def retryLoop (responses : ℕ → Resp) (items : List RosterItem) : ℕ → FetchSt → FetchSt
  | 0, st => st
  | n + 1, st =>
    let st1 := items.foldl (itemStep responses) { st with insts := [], fins := [] }
    if st1.insts.isEmpty then retryLoop responses items n st1 else st1

/-- A raw dataset: the `institutions_data` and `financials_data` maps keyed
by the resolved `NAME` values. -/
structure Dataset where
  institutions_data : List (CJson × CJson)
  financials_data : List (CJson × List CJson)

/-- The decimal digits of `n` (fuel-bounded; enough fuel for any value the
code produces). -/
def digitsAux : ℕ → ℕ → List Char
  | 0, _ => []
  | fuel + 1, n => if n = 0 then [] else digitsAux fuel (n / 10) ++ [Char.ofNat (48 + n % 10)]

/-- Decimal string of a natural number. -/
def natToStr (n : ℕ) : String :=
  if n = 0 then "0" else ⟨digitsAux 20 n⟩

/-- Decimal string of an integer. -/
def intToStr (z : ℤ) : String :=
  if z < 0 then "-" ++ natToStr z.natAbs else natToStr z.natAbs

/-- `json.dump`'s coercion of non-string dict keys to strings.  Every key in
the modelled flows is already a string; composite keys are unhashable and
unreachable.  (Python's float `repr` for non-integral numeric keys is
approximated by `num/den`.) -/
def keyStr : CJson → String
  | .str s => s
  | .bool b => if b then "true" else "false"
  | .null => "null"
  | .num q => if q.den = 1 then intToStr q.num else intToStr q.num ++ "/" ++ natToStr q.den
  | .arr _ => ""
  | .obj _ => ""

/-- The JSON value `json.dump` writes for a dataset:
`{"institutions_data": {...}, "financials_data": {...}}`. -/
def datasetToJson (d : Dataset) : CJson :=
  .obj
    [("institutions_data", .obj (d.institutions_data.map (fun p => (keyStr p.1, p.2)))),
     ("financials_data", .obj (d.financials_data.map (fun p => (keyStr p.1, .arr p.2))))]

/-- The `BANK_INFO` configuration constant as `(cert, name)` pairs. -/
def bankInfoList : List (String × String) :=
  [("33124", "Goldman Sachs Bank USA"),
   ("628", "JPMorgan Chase Bank, National Association"),
   ("3510", "Bank of America, National Association"),
   ("3511", "Wells Fargo Bank, National Association"),
   ("7213", "Citibank, National Association"),
   ("6548", "U.S. Bank National Association"),
   ("6384", "PNC Bank, National Association"),
   ("9846", "Truist Bank"),
   ("4297", "Capital One, National Association")]

/-- The names `_generate_fallback_data` treats as large banks. -/
def largeBankNames : List String :=
  ["JPMorgan Chase Bank, National Association",
   "Bank of America, National Association",
   "Wells Fargo Bank, National Association",
   "Citibank, National Association"]

/-- The names `_generate_fallback_data` treats as medium banks. -/
def mediumBankNames : List String :=
  ["Goldman Sachs Bank USA",
   "U.S. Bank National Association",
   "PNC Bank, National Association",
   "Truist Bank"]

/-- Day count of a civil date from a fixed era origin (standard civil-date
algorithm); only differences of these counts are used, and they agree with
calendar-day differences of `pandas` timestamps. -/
def daysFromCivil (y m d : ℕ) : ℕ :=
  let y1 := if m ≤ 2 then y - 1 else y
  let era := y1 / 400
  let yoe := y1 - era * 400
  let mp := if 2 < m then m - 3 else m + 9
  let doy := (153 * mp + 2) / 5 + d - 1
  let doe := yoe * 365 + yoe / 4 - yoe / 100 + doy
  era * 146097 + doe

/-- Day count of a `YYYYMMDD` natural number. -/
def civilOfNat (n : ℕ) : ℕ :=
  daysFromCivil (n / 10000) (n / 100 % 100) (n % 100)

/-- `pd.date_range(start, end, freq='Q')`: the quarter-end dates (Mar 31,
Jun 30, Sep 30, Dec 31) lying inside `[start, end]`, ascending. -/
def quarterEndList (sN eN : ℕ) : List ℕ :=
  (((List.range (eN / 10000 + 1 - sN / 10000)).map (fun i => sN / 10000 + i)).map
      (fun y => [y * 10000 + 331, y * 10000 + 630, y * 10000 + 930, y * 10000 + 1231])).flatten
    |>.filter (fun d => decide (sN ≤ d) && decide (d ≤ eN))

/-- `date.strftime("%Y%m%d")` for a `YYYYMMDD` natural number (years in the
modelled window are four digits). -/
def pad2 (n : ℕ) : String :=
  if n < 10 then "0" ++ natToStr n else natToStr n

/-- Render a `YYYYMMDD` natural number back to its date string. -/
def dateStrOfNat (n : ℕ) : String :=
  natToStr (n / 10000) ++ pad2 (n / 100 % 100) ++ pad2 (n % 100)

/-- `np.random.uniform(a, b)` as the `i`-th draw of the ambient random
stream `rand` (whose values lie in `[0, 1)`). -/
def uniformDraw (rand : ℕ → ℚ) (a b : ℚ) (i : ℕ) : ℚ :=
  qAdd a (qMul (qSub b a) (rand i))

/-- The rational number of an integer, computable by the kernel. -/
def qOfInt (z : ℤ) : ℚ := mkRat z 1

/-- One synthetic quarterly record of `_generate_fallback_data`, consuming
random draws from index `k` on in program order (the initial deposit/loan/
tier-1 draws are consumed even when the Goldman Sachs branch overwrites
them); returns the record and the next free draw index.  `0.05`-per-year
growth is applied via `years = days/365.25 = days*4/1461`. -/
def genRecord (rand : ℕ → ℚ) (bank_name : String) (base_assets : ℚ)
    (startDays : ℕ) (dateN : ℕ) (k : ℕ) : CJson × ℕ :=
  let u := uniformDraw rand
  let days : ℤ := (civilOfNat dateN : ℤ) - (startDays : ℤ)
  let years_since_start : ℚ := qDiv (qMul (qOfInt days) (qOfNat 4)) (qOfNat 1461)
  let growth_factor := qAdd (qOfNat 1) (qMul years_since_start (mkRat 1 20))
  let random_factor := u (mkRat 19 20) (mkRat 21 20) k
  let assets := qMul (qMul base_assets growth_factor) random_factor
  let deposits0 := qMul (qMul assets (mkRat 4 5)) (u (mkRat 9 10) (mkRat 11 10) (k + 1))
  let loans0 := qMul (qMul assets (mkRat 3 5)) (u (mkRat 9 10) (mkRat 11 10) (k + 2))
  let tier10 := qMul (qMul assets (mkRat 1 10)) (u (mkRat 9 10) (mkRat 11 10) (k + 3))
  let gs := bank_name = "Goldman Sachs Bank USA"
  let deposits :=
    if gs then qMul (qMul assets (mkRat 3 5)) (u (mkRat 9 10) (mkRat 11 10) (k + 4))
    else deposits0
  let loans :=
    if gs then qMul (qMul assets (mkRat 2 5)) (u (mkRat 9 10) (mkRat 11 10) (k + 5))
    else loans0
  let tier1_capital :=
    if gs then qMul (qMul assets (mkRat 3 25)) (u (mkRat 9 10) (mkRat 11 10) (k + 6))
    else tier10
  let k1 := if gs then k + 7 else k + 4
  let record : CJson := .obj
    [("REPDTE", .str (dateStrOfNat dateN)),
     ("ASSET", .num assets),
     ("DEP", .num deposits),
     ("LNLSGR", .num loans),
     ("LNLSNET", .num (qMul loans (mkRat 49 50))),
     ("RBCT1J", .num tier1_capital),
     ("ROA", .num (u (mkRat 1 2) (mkRat 3 2) k1)),
     ("ROE", .num (u (qOfNat 5) (qOfNat 15) (k1 + 1))),
     ("SC", .num (qMul assets (mkRat 1 5))),
     ("LNRE", .num (qMul loans (mkRat 1 2))),
     ("LNCI", .num (qMul loans (mkRat 3 10))),
     ("LNAG", .num (qMul loans (mkRat 1 20))),
     ("LNCRCD", .num (qMul loans (mkRat 1 10))),
     ("LNCONOTH", .num (qMul loans (mkRat 1 20))),
     ("LNATRES", .num (qMul loans (mkRat 1 50))),
     ("NIMY", .num (u (qOfNat 2) (qOfNat 4) (k1 + 2))),
     ("EEFFR", .num (u (qOfNat 50) (qOfNat 70) (k1 + 3)))]
  (record, k1 + 4)

/-- The quarterly record list of one bank in `_generate_fallback_data`,
threading the random draw index. -/
def genBankRecords (rand : ℕ → ℚ) (bank_name : String) (base_assets : ℚ)
    (startDays : ℕ) (dates : List ℕ) (k : ℕ) : List CJson × ℕ :=
  dates.foldl
    (fun acc d =>
      let r := genRecord rand bank_name base_assets startDays d acc.2
      (acc.1 ++ [r.1], r.2))
    ([], k)

/-- The per-bank body of `_generate_fallback_data`'s loop: add the
institutions entry, pick the asset tier, generate the quarterly records
(threading the random draw index), and store them under the bank name. -/
def fallbackStep (rand : ℕ → ℚ) (sDays : ℕ) (dates : List ℕ)
    (acc : List (CJson × CJson) × List (CJson × List CJson) × ℕ)
    (bi : String × String) :
    List (CJson × CJson) × List (CJson × List CJson) × ℕ :=
  let inst : CJson := .obj [("NAME", .str bi.2), ("CERT", .str bi.1)]
  let base_assets : ℚ :=
    if largeBankNames.contains bi.2 then qOfNat 500000000000
    else if mediumBankNames.contains bi.2 then qOfNat 100000000000
    else qOfNat 50000000000
  let recs := genBankRecords rand bi.2 base_assets sDays dates acc.2.2
  (dictInsert (.str bi.2) inst acc.1, dictInsert (.str bi.2) recs.1 acc.2.1, recs.2)

/-- `BankDataRepository._generate_fallback_data`: for every entity of the
fixed `BANK_INFO` configuration (not the roster passed to `fetch_data`),
an institutions entry and one synthetic record per quarter-end date in the
window; asset scale is tiered by bank identity. -/
def generateFallbackData (rand : ℕ → ℚ) (start_date end_date : String) : Dataset :=
  let sN := natOfDigits start_date
  let eN := natOfDigits end_date
  let dates := quarterEndList sN eN
  let sDays := civilOfNat sN
  let acc := bankInfoList.foldl (fallbackStep rand sDays dates)
    (([] : List (CJson × CJson)), ([] : List (CJson × List CJson)), (0 : ℕ))
  ⟨acc.1, acc.2.1⟩

/-- The repository's file system: cache files that exist and parse, as the
parsed JSON value per path.  (A corrupt or unreadable cache file is treated
by `load_cached_data` exactly like a missing one, and a failed cache write
is silently dropped, so both are modelled by absence.) -/
structure RepoState where
  files : List (String × CJson)

/-- `BankDataRepository.get_cache_path`. -/
def cachePath (start_date end_date : String) : String :=
  "data_cache/bank_data_" ++ start_date ++ "_" ++ end_date ++ ".json"

/-- Insert/replace a file by path. -/
def sInsert (k : String) (v : CJson) : List (String × CJson) → List (String × CJson)
  | [] => [(k, v)]
  | e :: rest => if e.1 = k then (e.1, v) :: rest else e :: sInsert k v rest

/-- `BankDataRepository.load_cached_data`: the parsed cache file, or `none`
when it is missing or unparseable. -/
def loadCachedData (st : RepoState) (start_date end_date : String) : Option CJson :=
  dlookup st.files (cachePath start_date end_date)

/-- `BankDataRepository.save_to_cache`. -/
def saveToCache (st : RepoState) (start_date end_date : String) (j : CJson) : RepoState :=
  ⟨sInsert (cachePath start_date end_date) j st.files⟩

/-- The value `fetch_data` returns: the parsed cache entry as-is, or a
freshly built dataset (live or synthetic). -/
inductive FetchResult where
  | fromCache (j : CJson)
  | fetched (d : Dataset)

/-- The JSON view of a fetch result (a fresh dataset compares through its
`json.dump` image). -/
def resultJson : FetchResult → CJson
  | .fromCache j => j
  | .fetched d => datasetToJson d

/-- The dataset of a fresh fetch result (placeholder for the cache case). -/
def resultDataset : FetchResult → Dataset
  | .fromCache _ => ⟨[], []⟩
  | .fetched d => d

/-- `fetch_data` after a cache miss: run the retry loop, then either
substitute the synthetic fallback dataset (when more than half the roster
items failed, or no institution was collected) or keep the live data; both
outcomes are saved to the cache.  The third component counts network calls.
(The outer per-attempt `except` handler is unreachable: every exception
inside the item loop is caught by the per-item handler.) -/
def fetchFresh (st : RepoState) (bank_info : List RosterItem)
    (start_date end_date : String) (responses : ℕ → Resp) (rand : ℕ → ℚ) :
    FetchResult × RepoState × ℕ :=
  let fs := retryLoop responses bank_info 3 ⟨[], [], 0, 0, 0⟩
  if fs.failures > bank_info.length / 2 || fs.insts.isEmpty then
    let ds := generateFallbackData rand start_date end_date
    (.fetched ds, saveToCache st start_date end_date (datasetToJson ds), fs.calls)
  else
    let ds : Dataset := ⟨fs.insts, fs.fins⟩
    (.fetched ds, saveToCache st start_date end_date (datasetToJson ds), fs.calls)

/-- `BankDataRepository.fetch_data`: a truthy parsed cache entry is returned
immediately with no network access; otherwise (including a falsy parsed
entry such as `{}`) fresh data is fetched. -/
def fetchData (st : RepoState) (bank_info : List RosterItem)
    (start_date end_date : String) (responses : ℕ → Resp) (rand : ℕ → ℚ) :
    FetchResult × RepoState × ℕ :=
  match loadCachedData st start_date end_date with
  | some j =>
    if j.truthy then (.fromCache j, st, 0)
    else fetchFresh st bank_info start_date end_date responses rand
  | none => fetchFresh st bank_info start_date end_date responses rand

/-- The institution keys of a dataset, as strings. -/
def instKeyStrs (d : Dataset) : List String :=
  d.institutions_data.map (fun p => keyStr p.1)

/-- The financials keys of a dataset, as strings. -/
def finKeyStrs (d : Dataset) : List String :=
  d.financials_data.map (fun p => keyStr p.1)

/-- The nine configured bank names, in `BANK_INFO` order. -/
def bankInfoNames : List String := bankInfoList.map (fun p => p.2)

/-- A well-formed institutions response resolving to `(name, cert)`. -/
def instEnvelope (name cert : String) : Resp :=
  .body (.obj [("data",
    .arr [.obj [("data", .obj [("NAME", .str name), ("CERT", .str cert)])]])])

/-- A well-formed financials response carrying the given records. -/
def finEnvelope (recs : List CJson) : Resp :=
  .body (.obj [("data", .arr (recs.map (fun r => .obj [("data", r)])))])

/-- A three-entity roster. -/
def rosterABC : List RosterItem :=
  [.byName "Bank A", .byName "Bank B", .byName "Bank C"]

/-- One sample period record. -/
def recA : CJson := .obj [("REPDTE", .str "20240331")]

/-- Responses for the resolution-failure scenario: entity A resolves and
fetches; the institutions requests for B and C fail at transport level, so
`get_institutions` returns the empty list and the items are skipped without
touching the failure counter. -/
def respTwoNoMatch : ℕ → Resp := fun n =>
  match n with
  | 0 => instEnvelope "Bank A" "1"
  | 1 => finEnvelope [recA]
  | _ => .fail

/-- Responses for the counted-failure scenario: entity A resolves and
fetches; the institutions responses for B and C are valid JSON numbers, so
`data.get('data', [])` raises `AttributeError`, caught by the per-item
handler, counting two failures. -/
def respTwoRaise : ℕ → Resp := fun n =>
  match n with
  | 0 => instEnvelope "Bank A" "1"
  | 1 => finEnvelope [recA]
  | _ => .body (.num 0)

/-- Responses for the all-fail-then-all-succeed scenario: every institutions
request of the first attempt raises (`AttributeError` on a numeric body);
from the fourth response on, all three entities resolve and fetch. -/
def respFailThenOk : ℕ → Resp := fun n =>
  match n with
  | 0 => .body (.num 1)
  | 1 => .body (.num 1)
  | 2 => .body (.num 1)
  | 3 => instEnvelope "Bank A" "1"
  | 4 => finEnvelope [recA]
  | 5 => instEnvelope "Bank B" "2"
  | 6 => finEnvelope [recA]
  | 7 => instEnvelope "Bank C" "3"
  | 8 => finEnvelope [recA]
  | _ => .fail

/-- Responses for the mismatched-key-set scenario: entities A and B both
resolve; A's financials response is well-formed, B's financials response is
a valid JSON number, so `data.get('data', [])` raises after B's institution
record was stored. -/
def respFinCrash : ℕ → Resp := fun n =>
  match n with
  | 0 => instEnvelope "Bank A" "1"
  | 1 => finEnvelope [recA]
  | 2 => instEnvelope "Bank B" "2"
  | 3 => .body (.num 0)
  | _ => .fail

/-- A two-entity roster. -/
def rosterAB : List RosterItem := [.byName "Bank A", .byName "Bank B"]

/-- The key list of an association list. -/
def keysOf (l : List (CJson × α)) : List CJson := l.map Prod.fst

/-- A record carrying the CECL inputs of the spec's worked example:
`CT1BADJ = 100`, `EQ = 90`, `EQPP = 5`, at a post-transition date. -/
def c4FinAfter : CJson :=
  .obj [("REPDTE", .str "20190331"), ("CT1BADJ", .num 100), ("EQ", .num 90),
    ("EQPP", .num 5)]

/-- The same inputs at a pre-transition date. -/
def c4FinBefore : CJson :=
  .obj [("REPDTE", .str "20181231"), ("CT1BADJ", .num 100), ("EQ", .num 90),
    ("EQPP", .num 5)]

/-- Metrics extracted from the post-transition example record. -/
def c4MetricsAfter : Metrics := extractBasicMetrics (.str "Entity") c4FinAfter

/-- Metrics extracted from the pre-transition example record. -/
def c4MetricsBefore : Metrics := extractBasicMetrics (.str "Entity") c4FinBefore

/-- A sample metrics row used to instantiate the capital-ratio theorem. -/
def c5Metrics : Metrics :=
  extractBasicMetrics (.str "Entity")
    (.obj [("REPDTE", .str "20200331"), ("LNRE", .num 500000), ("LNCI", .num 300000)])

/-- The single well-behaved-roster scenario used to instantiate the key-set
invariant: one entity that resolves and fetches; all other responses are
transport failures. -/
def respW8 : ℕ → Resp := fun n =>
  match n with
  | 0 => instEnvelope "Bank A" "1"
  | 1 => finEnvelope [recA]
  | _ => .fail

theorem rat_num_cast_eq (a : ℚ) : (a.num : ℚ) = a * a.den :=
  (div_eq_iff (by positivity : (a.den : ℚ) ≠ 0)).mp (Rat.num_div_den a)

theorem qAdd_eq (a b : ℚ) : qAdd a b = a + b := by
  rw [qAdd, Rat.mkRat_eq_div]
  push_cast
  rw [div_eq_iff (by positivity : ((a.den : ℚ) * b.den) ≠ 0), rat_num_cast_eq,
    rat_num_cast_eq]
  ring

theorem qNeg_eq (a : ℚ) : qNeg a = -a := by
  rw [qNeg, Rat.mkRat_eq_div]
  push_cast
  rw [div_eq_iff (by positivity : ((a.den : ℚ)) ≠ 0), rat_num_cast_eq]
  ring

theorem qSub_eq (a b : ℚ) : qSub a b = a - b := by
  rw [qSub, qAdd_eq, qNeg_eq]
  ring

theorem qMul_eq (a b : ℚ) : qMul a b = a * b := by
  rw [qMul, Rat.mkRat_eq_div]
  push_cast
  rw [div_eq_iff (by positivity : ((a.den : ℚ) * b.den) ≠ 0), rat_num_cast_eq,
    rat_num_cast_eq]
  ring

theorem qDiv_eq (a b : ℚ) : qDiv a b = a / b := by
  rw [qDiv, Rat.divInt_eq_div]
  push_cast
  rcases eq_or_ne b 0 with rfl | hb0
  · simp
  · have hbn : ((b.num : ℚ)) ≠ 0 := by exact_mod_cast Rat.num_ne_zero.mpr hb0
    have hda : ((a.den : ℚ)) ≠ 0 := by positivity
    rw [div_eq_div_iff (mul_ne_zero hda hbn) hb0, rat_num_cast_eq, rat_num_cast_eq]
    ring

theorem qOfNat_eq (n : ℕ) : qOfNat n = (n : ℚ) := by
  rw [qOfNat, Rat.mkRat_eq_div]
  simp

/-- C4: the CECL transition amount and capital base follow the
date-conditional formulas — on/after 2019-01-01 the transition amount is
`CT1BADJ − EQ + EQPP` and the capital base `RBCT1J + LNATRES` minus that
amount; before, the transition amount is `0` and the capital base
`RBCT1J + LNATRES` — and the worked example `CT1BADJ=100, EQ=90, EQPP=5`
gives `15` on/after the effective date and `0` before it. -/
theorem claim_c4 :
    (∀ (m : Metrics) (f : CJson),
      calcCapitalBase m f =
        if repdteNat f ≥ 20190101 then
          ((m.cet1BeforeAdjustments.sub m.bankEquityCapital).add m.perpetualPreferredStock,
            (m.tier1CoreCapital.add m.allowanceForCreditLoss).sub
              ((m.cet1BeforeAdjustments.sub m.bankEquityCapital).add
                m.perpetualPreferredStock))
        else (.finite 0, m.tier1CoreCapital.add m.allowanceForCreditLoss)) ∧
    (calcCapitalBase c4MetricsAfter c4FinAfter).1 = .finite 15 ∧
    (calcCapitalBase c4MetricsBefore c4FinBefore).1 = .finite 0 := by
  refine ⟨fun m f => rfl, by decide, by decide⟩

/-- C5: with a capital base at or below the 1,000,000 floor (`> 1000000` is
false, which also covers NaN), all five capital-adequacy ratios and the
composite commercial-real-estate ratio are the null marker `none` — never
zero and never NaN — while a capital base above the floor yields every ratio
as `(numerator / capitalBase) * 100`. -/
theorem claim_c5 :
    (∀ (m : Metrics) (q : ℚ), q ≤ 1000000 →
      (calcCapitalRatios m (.finite q)).realEstateToCap = none ∧
      (calcCapitalRatios m (.finite q)).reConstructionToCap = none ∧
      (calcCapitalRatios m (.finite q)).ciToCap = none ∧
      (calcCapitalRatios m (.finite q)).agToCap = none ∧
      (calcCapitalRatios m (.finite q)).creditCardsToCap = none ∧
      (calcCapitalRatios m (.finite q)).commercialREToCap = none) ∧
    (∀ (m : Metrics) (cb : FloatVal), cb.gt 1000000 = true →
      (calcCapitalRatios m cb).realEstateToCap =
        some ((m.realEstateLoans.div cb).mul (.finite 100)) ∧
      (calcCapitalRatios m cb).reConstructionToCap =
        some ((m.reConstruction.div cb).mul (.finite 100)) ∧
      (calcCapitalRatios m cb).ciToCap =
        some ((m.commercialIndustrial.div cb).mul (.finite 100)) ∧
      (calcCapitalRatios m cb).agToCap =
        some ((m.agricultureLoans.div cb).mul (.finite 100)) ∧
      (calcCapitalRatios m cb).creditCardsToCap =
        some ((m.creditCards.div cb).mul (.finite 100)) ∧
      (calcCapitalRatios m cb).commercialREToCap =
        some (((((m.reConstruction.add m.multifamily).add
          m.loansToNonresidential).add m.commercialRENotSecured).div cb).mul
            (.finite 100))) := by
  constructor
  · intro m q h
    have hgt : FloatVal.gt (.finite q) 1000000 = false := by
      simp [FloatVal.gt, not_lt.mpr h]
    simp [calcCapitalRatios, hgt]
  · intro m cb h
    simp [calcCapitalRatios, h]

/-- C5 witness: a zero capital base nulls every ratio, and a base of
2,000,000 computes them. -/
theorem claim_c5_witness :
    ((0 : ℚ) ≤ 1000000 ∧
      (calcCapitalRatios c5Metrics (.finite 0)).realEstateToCap = none ∧
      (calcCapitalRatios c5Metrics (.finite 0)).reConstructionToCap = none ∧
      (calcCapitalRatios c5Metrics (.finite 0)).ciToCap = none ∧
      (calcCapitalRatios c5Metrics (.finite 0)).agToCap = none ∧
      (calcCapitalRatios c5Metrics (.finite 0)).creditCardsToCap = none ∧
      (calcCapitalRatios c5Metrics (.finite 0)).commercialREToCap = none) ∧
    (FloatVal.gt (.finite 2000000) 1000000 = true ∧
      (calcCapitalRatios c5Metrics (.finite 2000000)).realEstateToCap =
        some ((c5Metrics.realEstateLoans.div (.finite 2000000)).mul (.finite 100))) :=
  ⟨⟨by norm_num, claim_c5.1 c5Metrics 0 (by norm_num)⟩,
   ⟨by decide, (claim_c5.2 c5Metrics (.finite 2000000) (by decide)).1⟩⟩

/-- C2 (counterexample): with 13 consecutive quarterly records whose CRE
aggregate is exactly `1000` at period 0 and `1500` at period 12, the
growth rate at period 12 is the null marker, not `50.0`: the source's
materiality check `old > 1000` is strict, and a base of exactly 1000 fails
it. -/
theorem claim_c2_counterexample :
    ((calcBankRows (.str "Entity") (c2Recs 1000 1500)).map
      (fun r => r.creGrowthRate)).get? 12 = some none := by
  decide

/-- C2 (amended): the historical base must strictly exceed the 1,000 floor;
with base exactly `1000` (and `1500` at period 12) all thirteen growth rates
are the null marker, while with base `2000` and current `3000` the rate at
period 12 is `50.0` and periods 0–11 are the null marker. -/
theorem claim_c2_amended :
    ((calcBankRows (.str "Entity") (c2Recs 1000 1500)).map
      (fun r => r.creGrowthRate) = List.replicate 13 none) ∧
    ((calcBankRows (.str "Entity") (c2Recs 2000 3000)).map
      (fun r => r.creGrowthRate) =
        List.replicate 12 none ++ [some (.finite 50)]) := by
  exact ⟨by decide, by decide⟩

/-- C7: on a transport-level failure (timeout, connection failure, non-2xx,
unparseable body) no exception escapes the client: `get_data` returns the
envelope with an empty data list, and `get_institutions` / `get_financials`
return an empty collection (and the record comprehension over it is empty).
-/
theorem claim_c7 :
    getData .fail = .obj [("data", .arr [])] ∧
    getInstitutionsRaw .fail = .ok (.arr []) ∧
    getFinancialsRaw .fail = .ok (.arr []) ∧
    finListResult .fail = .ok [] := by
  exact ⟨rfl, rfl, rfl, rfl⟩

/-- C10: a cache entry that parses to a falsy value (such as the empty JSON
object) is treated as a miss — `fetch_data` proceeds to fetch fresh data —
while a truthy parsed entry is returned immediately with zero network
calls. -/
theorem claim_c10 (st : RepoState) (roster : List RosterItem) (s e : String)
    (resp : ℕ → Resp) (rand : ℕ → ℚ) :
    (loadCachedData st s e = some (.obj []) →
      fetchData st roster s e resp rand = fetchFresh st roster s e resp rand) ∧
    (∀ j, loadCachedData st s e = some j → j.truthy = true →
      fetchData st roster s e resp rand = (.fromCache j, st, 0)) := by
  constructor
  · intro h
    simp [fetchData, h, CJson.truthy]
  · intro j h ht
    simp [fetchData, h, ht]

/-- C10 witness: a repository whose cache file for the key holds `{}`
proceeds to the fresh path; one whose cache holds a non-empty object returns
it unchanged with zero network calls. -/
theorem claim_c10_witness :
    (loadCachedData ⟨[(cachePath "20240331" "20240630", .obj [])]⟩ "20240331" "20240630" =
      some (.obj []) ∧
      fetchData ⟨[(cachePath "20240331" "20240630", .obj [])]⟩ [] "20240331" "20240630"
        (fun _ => .fail) (fun _ => 0) =
      fetchFresh ⟨[(cachePath "20240331" "20240630", .obj [])]⟩ [] "20240331" "20240630"
        (fun _ => .fail) (fun _ => 0)) ∧
    (loadCachedData ⟨[(cachePath "20240331" "20240630", .obj [("k", .null)])]⟩
        "20240331" "20240630" = some (.obj [("k", .null)]) ∧
      fetchData ⟨[(cachePath "20240331" "20240630", .obj [("k", .null)])]⟩ []
        "20240331" "20240630" (fun _ => .fail) (fun _ => 0) =
      (.fromCache (.obj [("k", .null)]),
        ⟨[(cachePath "20240331" "20240630", .obj [("k", .null)])]⟩, 0)) :=
  ⟨⟨rfl, (claim_c10 _ _ _ _ _ _).1 rfl⟩,
   ⟨rfl, (claim_c10 _ _ _ _ _ _).2 _ rfl rfl⟩⟩

/-- C1 (counterexample): a roster of three entities where two fail
resolution — their institutions lookups fail at transport level, so
`get_institutions` returns the empty list — does not trigger fallback: the
failure counter stays at 0 (the `if not institutions: continue` path does
not count), the one resolved entity makes the batch "successful", and the
returned dataset holds only `Bank A`, missing the other two roster
entities. -/
theorem claim_c1_counterexample :
    (retryLoop respTwoNoMatch rosterABC 3 ⟨[], [], 0, 0, 0⟩).failures = 0 ∧
    instKeyStrs (resultDataset
      (fetchData ⟨[]⟩ rosterABC "20240331" "20240630" respTwoNoMatch (fun _ => 0)).1) =
      ["Bank A"] := by
  exact ⟨by decide, by decide⟩

/-- C1 (amended): when two of the three roster items fail with counted
per-item exceptions (here: institutions responses that are valid JSON but
not objects), the `api_failures > len(bank_info) // 2` threshold triggers
and the synthetic fallback dataset is returned; its institutions and
financials maps contain exactly the nine `BANK_INFO` entities — the fixed
configuration, not the roster that was passed in. -/
theorem claim_c1_amended (rand : ℕ → ℚ) :
    (retryLoop respTwoRaise rosterABC 3 ⟨[], [], 0, 0, 0⟩).failures = 2 ∧
    (fetchData ⟨[]⟩ rosterABC "20240331" "20240630" respTwoRaise rand).1 =
      .fetched (generateFallbackData rand "20240331" "20240630") ∧
    instKeyStrs (generateFallbackData rand "20240331" "20240630") = bankInfoNames ∧
    finKeyStrs (generateFallbackData rand "20240331" "20240630") = bankInfoNames := by
  exact ⟨by decide, rfl, rfl, rfl⟩

/-- C9: `api_failures` accumulates across retry attempts (only the two maps
are cleared on retry): with a roster of three where every item of the first
attempt raises and every item of the second attempt succeeds, the final
attempt collects all three entities, yet `api_failures = 3 > 3 // 2` makes
`fetch_data` discard the live data and return the synthetic fallback
dataset. -/
theorem claim_c9 (rand : ℕ → ℚ) :
    (retryLoop respFailThenOk rosterABC 3 ⟨[], [], 0, 0, 0⟩).failures = 3 ∧
    keysOf (retryLoop respFailThenOk rosterABC 3 ⟨[], [], 0, 0, 0⟩).insts =
      [.str "Bank A", .str "Bank B", .str "Bank C"] ∧
    keysOf (retryLoop respFailThenOk rosterABC 3 ⟨[], [], 0, 0, 0⟩).fins =
      [.str "Bank A", .str "Bank B", .str "Bank C"] ∧
    (fetchData ⟨[]⟩ rosterABC "20240331" "20240630" respFailThenOk rand).1 =
      .fetched (generateFallbackData rand "20240331" "20240630") := by
  exact ⟨by decide, rfl, rfl, rfl⟩

theorem dlookup_sInsert (k : String) (v : CJson) (l : List (String × CJson)) :
    dlookup (sInsert k v l) k = some v := by
  induction l with
  | nil => simp [sInsert, dlookup]
  | cons e rest ih =>
    by_cases h : e.1 = k
    · simp [sInsert, dlookup, h]
    · simp [sInsert, dlookup, h, ih]

theorem loadCached_save (st : RepoState) (s e : String) (j : CJson) :
    loadCachedData (saveToCache st s e j) s e = some j :=
  dlookup_sInsert (cachePath s e) j st.files

theorem datasetToJson_truthy (d : Dataset) : (datasetToJson d).truthy = true := rfl

theorem fetchFresh_shape (st : RepoState) (roster : List RosterItem) (s e : String)
    (resp : ℕ → Resp) (rand : ℕ → ℚ) :
    ∃ ds calls, fetchFresh st roster s e resp rand =
      (.fetched ds, saveToCache st s e (datasetToJson ds), calls) := by
  unfold fetchFresh
  dsimp only
  split
  · exact ⟨_, _, rfl⟩
  · exact ⟨_, _, rfl⟩

theorem second_fetch_of_fresh (st : RepoState) (roster : List RosterItem) (s e : String)
    (resp resp2 : ℕ → Resp) (rand rand2 : ℕ → ℚ)
    (h : fetchData st roster s e resp rand = fetchFresh st roster s e resp rand) :
    (fetchData (fetchData st roster s e resp rand).2.1 roster s e resp2 rand2).2.2 = 0 ∧
    resultJson (fetchData (fetchData st roster s e resp rand).2.1 roster s e resp2 rand2).1 =
      resultJson (fetchData st roster s e resp rand).1 ∧
    (fetchData (fetchData st roster s e resp rand).2.1 roster s e resp2 rand2).2.1 =
      (fetchData st roster s e resp rand).2.1 := by
  obtain ⟨ds, calls, hf⟩ := fetchFresh_shape st roster s e resp rand
  have h1 : fetchData st roster s e resp rand =
      (.fetched ds, saveToCache st s e (datasetToJson ds), calls) := h.trans hf
  rw [h1]
  have hl : loadCachedData (saveToCache st s e (datasetToJson ds)) s e =
      some (datasetToJson ds) := loadCached_save st s e (datasetToJson ds)
  simp [fetchData, hl, datasetToJson_truthy, resultJson]

/-- C6: fetching is idempotent with respect to the cache.  After any first
invocation of `fetch_data` (which always leaves a truthy entry under the
`(startDate, endDate)` key — either the pre-existing cached value or the
freshly saved dataset), a second invocation with the same key performs zero
network calls, returns an equivalent dataset (the cached entry, equal as a
JSON value to the first result), and leaves the repository state
unchanged. -/
theorem claim_c6 (st : RepoState) (roster : List RosterItem) (s e : String)
    (resp resp2 : ℕ → Resp) (rand rand2 : ℕ → ℚ) :
    (fetchData (fetchData st roster s e resp rand).2.1 roster s e resp2 rand2).2.2 = 0 ∧
    resultJson (fetchData (fetchData st roster s e resp rand).2.1 roster s e resp2 rand2).1 =
      resultJson (fetchData st roster s e resp rand).1 ∧
    (fetchData (fetchData st roster s e resp rand).2.1 roster s e resp2 rand2).2.1 =
      (fetchData st roster s e resp rand).2.1 := by
  cases hload : loadCachedData st s e with
  | none =>
    exact second_fetch_of_fresh st roster s e resp resp2 rand rand2
      (by simp [fetchData, hload])
  | some j =>
    cases htr : j.truthy with
    | false =>
      exact second_fetch_of_fresh st roster s e resp resp2 rand rand2
        (by simp [fetchData, hload, htr])
    | true =>
      have h1 : fetchData st roster s e resp rand = (.fromCache j, st, 0) := by
        simp [fetchData, hload, htr]
      rw [h1]
      simp [fetchData, hload, htr]

theorem respW8_ok : ∀ n, finRespOK (respW8 n) = true := fun n =>
  match n with
  | 0 => rfl
  | 1 => rfl
  | _ + 2 => rfl

theorem keysOf_cons (e : CJson × α) (l : List (CJson × α)) :
    keysOf (e :: l) = e.1 :: keysOf l := rfl

theorem dictInsert_keys (k : CJson) (v : α) (l : List (CJson × α)) :
    keysOf (dictInsert k v l) =
      if (keysOf l).any (fun x => keyEq k x) then keysOf l else keysOf l ++ [k] := by
  induction l with
  | nil => simp [dictInsert, keysOf]
  | cons e rest ih =>
    by_cases h : keyEq k e.1 = true
    · simp [dictInsert, h, keysOf_cons, List.any_cons]
    · rw [Bool.not_eq_true] at h
      rw [show dictInsert k v (e :: rest) = e :: dictInsert k v rest from by
        simp [dictInsert, h]]
      rw [keysOf_cons, keysOf_cons, ih, List.any_cons, h]
      simp only [Bool.false_or]
      split <;> simp

theorem dictInsert_keys_congr (k : CJson) (v1 : α) (v2 : β)
    (l1 : List (CJson × α)) (l2 : List (CJson × β)) (h : keysOf l1 = keysOf l2) :
    keysOf (dictInsert k v1 l1) = keysOf (dictInsert k v2 l2) := by
  rw [dictInsert_keys, dictInsert_keys, h]

theorem finRespOK_ok (r : Resp) (h : finRespOK r = true) :
    ∃ xs, finListResult r = .ok xs := by
  match r with
  | .fail => exact ⟨[], rfl⟩
  | .body (.null) => simp [finRespOK] at h
  | .body (.bool b) => simp [finRespOK] at h
  | .body (.num q) => simp [finRespOK] at h
  | .body (.str s) => simp [finRespOK] at h
  | .body (.arr xs) => simp [finRespOK] at h
  | .body (.obj es) =>
    have he : finListResult (.body (.obj es)) =
        financialsList (dget es "data" (.arr [])) := rfl
    have hh : finRespOK (.body (.obj es)) =
        (match dget es "data" (.arr []) with
          | .arr _ => true
          | .str _ => true
          | .obj _ => true
          | _ => false) := rfl
    rw [hh] at h
    rw [he]
    cases hv : dget es "data" (.arr []) with
    | arr xs => exact ⟨_, rfl⟩
    | str s => exact ⟨[], rfl⟩
    | obj oes => exact ⟨[], rfl⟩
    | null => rw [hv] at h; simp at h
    | bool b => rw [hv] at h; simp at h
    | num q => rw [hv] at h; simp at h

theorem itemFetch_keys (responses : ℕ → Resp) (st : FetchSt)
    (hOK : ∀ n, finRespOK (responses n) = true)
    (h : keysOf st.insts = keysOf st.fins) :
    keysOf (itemFetch responses st).insts = keysOf (itemFetch responses st).fins := by
  unfold itemFetch
  dsimp only
  cases resolveOutcome (responses st.respIdx) with
  | skip => exact h
  | raise => exact h
  | proceed nm bd =>
    by_cases hh : hashableKey nm = true
    · obtain ⟨xs, hxs⟩ := finRespOK_ok _ (hOK (st.respIdx + 1))
      simp only [hh, if_true, hxs]
      exact dictInsert_keys_congr nm bd xs st.insts st.fins h
    · rw [Bool.not_eq_true] at hh
      simp only [hh, Bool.false_eq_true, if_false]
      exact h

theorem foldl_itemStep_keys (responses : ℕ → Resp)
    (hOK : ∀ n, finRespOK (responses n) = true) :
    ∀ (items : List RosterItem) (st : FetchSt),
      keysOf st.insts = keysOf st.fins →
      keysOf (items.foldl (itemStep responses) st).insts =
        keysOf (items.foldl (itemStep responses) st).fins := by
  intro items
  induction items with
  | nil => exact fun st h => h
  | cons it rest ih =>
    intro st h
    apply ih
    cases it with
    | invalid => exact h
    | byName s => exact itemFetch_keys responses st hOK h
    | byCert c => exact itemFetch_keys responses st hOK h

theorem retryLoop_keys (responses : ℕ → Resp) (items : List RosterItem)
    (hOK : ∀ n, finRespOK (responses n) = true) :
    ∀ (fuel : ℕ) (st : FetchSt),
      keysOf st.insts = keysOf st.fins →
      keysOf (retryLoop responses items fuel st).insts =
        keysOf (retryLoop responses items fuel st).fins := by
  intro fuel
  induction fuel with
  | zero => exact fun st h => h
  | succ n ih =>
    intro st h
    have h1 := foldl_itemStep_keys responses hOK items
      { st with insts := [], fins := [] } rfl
    unfold retryLoop
    dsimp only
    split
    · exact ih _ h1
    · exact h1

theorem fallbackFold_keys (rand : ℕ → ℚ) (sDays : ℕ) (dates : List ℕ) :
    ∀ (l : List (String × String))
      (acc : List (CJson × CJson) × List (CJson × List CJson) × ℕ),
      keysOf acc.1 = keysOf acc.2.1 →
      keysOf (l.foldl (fallbackStep rand sDays dates) acc).1 =
        keysOf (l.foldl (fallbackStep rand sDays dates) acc).2.1 := by
  intro l
  induction l with
  | nil => exact fun acc h => h
  | cons bi rest ih =>
    intro acc h
    apply ih
    exact dictInsert_keys_congr _ _ _ _ _ h

theorem fallback_keys (rand : ℕ → ℚ) (s e : String) :
    keysOf (generateFallbackData rand s e).institutions_data =
      keysOf (generateFallbackData rand s e).financials_data := by
  unfold generateFallbackData
  dsimp only
  exact fallbackFold_keys _ _ _ bankInfoList _ rfl

/-- C8 (counterexample): both entities of a two-entity roster resolve, but
the second entity's financials response is valid JSON that is not an object,
so `data.get('data', [])` raises `AttributeError` after `Bank B`'s
institution record was stored; the failure count (1) does not exceed half
the roster, and `fetch_data` returns a dataset whose institutions map has
keys `A, B` while the financials map only has `A` — the key sets differ. -/
theorem claim_c8_counterexample :
    instKeyStrs (resultDataset
      (fetchData ⟨[]⟩ rosterAB "20240331" "20240630" respFinCrash (fun _ => 0)).1) =
      ["Bank A", "Bank B"] ∧
    finKeyStrs (resultDataset
      (fetchData ⟨[]⟩ rosterAB "20240331" "20240630" respFinCrash (fun _ => 0)).1) =
      ["Bank A"] := by
  exact ⟨by decide, by decide⟩

/-- C8 (amended): every raw dataset freshly produced by `fetch_data` —
live or synthetic fallback — has equal institution and financials key sets,
provided each network response is either a transport-level failure or a JSON
object whose `data` field iterates without raising (a list, string or
object).  Without that proviso a financials response that is valid JSON but
not such an object raises after the institution record was stored, leaving
the institutions map with a key the financials map lacks. -/
theorem claim_c8_amended (st : RepoState) (roster : List RosterItem) (s e : String)
    (resp : ℕ → Resp) (rand : ℕ → ℚ)
    (hOK : ∀ n, finRespOK (resp n) = true) :
    keysOf (resultDataset (fetchFresh st roster s e resp rand).1).institutions_data =
      keysOf (resultDataset (fetchFresh st roster s e resp rand).1).financials_data := by
  unfold fetchFresh
  dsimp only
  split
  · exact fallback_keys rand s e
  · exact retryLoop_keys resp roster hOK 3 ⟨[], [], 0, 0, 0⟩ rfl

/-- C8 witness: a roster whose single entity resolves and fetches under
well-behaved responses yields matching key sets. -/
theorem claim_c8_witness :
    (∀ n, finRespOK (respW8 n) = true) ∧
    keysOf (resultDataset
      (fetchFresh ⟨[]⟩ [RosterItem.byName "Bank A"] "20240331" "20240630" respW8
        (fun _ => 0)).1).institutions_data =
    keysOf (resultDataset
      (fetchFresh ⟨[]⟩ [RosterItem.byName "Bank A"] "20240331" "20240630" respW8
        (fun _ => 0)).1).financials_data :=
  ⟨respW8_ok,
   claim_c8_amended ⟨[]⟩ [RosterItem.byName "Bank A"] "20240331" "20240630" respW8
     (fun _ => 0) respW8_ok⟩
